import Mathlib

/-!
Verification of the DingTalk robot client (`src/robot.ts`).

The file embeds the program shallowly:

* the signature pipeline of `Robot.request` (robot.ts:133-141) — HMAC-SHA256
  (via the Node `crypto` module, modelled here by an executable FIPS 180-4 /
  FIPS 198-1 implementation over byte lists), base64, and JavaScript's
  `encodeURIComponent`;
* the constructor's option handling (robot.ts:72-97), with JavaScript
  truthiness made explicit;
* the axios transport including `validateStatus` (robot.ts:84-88), the
  cache-busting request interceptor (robot.ts:90-95) and the `axios-retry`
  configuration (robot.ts:99-124), with one HTTP attempt abstracted as an
  oracle `Nat → TransportResult` indexed by the attempt number;
* the five message builders (robot.ts:165-231) and `JSON.stringify`
  serialization of their payloads (`undefined` object fields dropped).

Bytes are `Nat` (< 256), 32-bit words are `Nat` reduced by `w32`, JavaScript
numbers that the program only ever treats as integers are `Int`/`Nat`.
-/

namespace DingtalkRobot

/-! ## 32-bit word arithmetic (the `crypto` HMAC-SHA256 works on 32-bit words) -/

/-- Truncation to a 32-bit word. -/
def w32 (n : Nat) : Nat := n % 4294967296

/-- Right rotation of a 32-bit word (argument `x < 2^32`). -/
def rotr (n x : Nat) : Nat := w32 ((x >>> n) + ((x % (1 <<< n)) <<< (32 - n)))

/-- Bitwise complement within 32 bits. -/
def not32 (x : Nat) : Nat := 4294967295 ^^^ w32 x

/-- SHA-256 `Ch`. -/
def ch (x y z : Nat) : Nat := (x &&& y) ^^^ (not32 x &&& z)

/-- SHA-256 `Maj`. -/
def maj (x y z : Nat) : Nat := (x &&& y) ^^^ (x &&& z) ^^^ (y &&& z)

/-- SHA-256 `Σ₀`. -/
def bsig0 (x : Nat) : Nat := rotr 2 x ^^^ rotr 13 x ^^^ rotr 22 x

/-- SHA-256 `Σ₁`. -/
def bsig1 (x : Nat) : Nat := rotr 6 x ^^^ rotr 11 x ^^^ rotr 25 x

/-- SHA-256 `σ₀`. -/
def ssig0 (x : Nat) : Nat := rotr 7 x ^^^ rotr 18 x ^^^ (x >>> 3)

/-- SHA-256 `σ₁`. -/
def ssig1 (x : Nat) : Nat := rotr 17 x ^^^ rotr 19 x ^^^ (x >>> 10)

/-! ## SHA-256 over byte lists (FIPS 180-4), executable -/

/-- The 64 SHA-256 round constants, in decimal. -/
def sha256K : List Nat :=
  [1116352408, 1899447441, 3049323471, 3921009573, 961987163, 1508970993, 2453635748, 2870763221,
   3624381080, 310598401, 607225278, 1426881987, 1925078388, 2162078206, 2614888103, 3248222580,
   3835390401, 4022224774, 264347078, 604807628, 770255983, 1249150122, 1555081692, 1996064986,
   2554220882, 2821834349, 2952996808, 3210313671, 3336571891, 3584528711, 113926993, 338241895,
   666307205, 773529912, 1294757372, 1396182291, 1695183700, 1986661051, 2177026350, 2456956037,
   2730485921, 2820302411, 3259730800, 3345764771, 3516065817, 3600352804, 4094571909, 275423344,
   430227734, 506948616, 659060556, 883997877, 958139571, 1322822218, 1537002063, 1747873779,
   1955562222, 2024104815, 2227730452, 2361852424, 2428436474, 2756734187, 3204031479, 3329325298]

/-- The eight SHA-256 initial hash values, in decimal. -/
def sha256IV : List Nat :=
  [1779033703, 3144134277, 1013904242, 2773480762, 1359893119, 2600822924, 528734635, 1541459225]

/-- Big-endian word assembly: each 4 bytes become one 32-bit word. -/
def bytesToWords : List Nat → List Nat
  | b0 :: b1 :: b2 :: b3 :: rest =>
      (b0 * 16777216 + b1 * 65536 + b2 * 256 + b3) :: bytesToWords rest
  | _ => []

/-- Big-endian 4-byte serialization of a 32-bit word. -/
def be32 (n : Nat) : List Nat :=
  [n / 16777216 % 256, n / 65536 % 256, n / 256 % 256, n % 256]

/-- Big-endian 8-byte serialization of a 64-bit length. -/
def be64 (n : Nat) : List Nat :=
  [n / 72057594037927936 % 256, n / 281474976710656 % 256, n / 1099511627776 % 256,
   n / 4294967296 % 256, n / 16777216 % 256, n / 65536 % 256, n / 256 % 256, n % 256]

/-- Extend the 16 block words by `fuel` further schedule words (FIPS 180-4 §6.2.2). -/
def sha256Extend (w : Array Nat) : Nat → Array Nat
  | 0 => w
  | fuel + 1 =>
      let t := w.size
      let x := w32 (ssig1 (w.getD (t - 2) 0) + w.getD (t - 7) 0 +
        ssig0 (w.getD (t - 15) 0) + w.getD (t - 16) 0)
      sha256Extend (w.push x) fuel

/-- The eight working variables of the compression function. -/
structure Sha256State where
  a : Nat
  b : Nat
  c : Nat
  d : Nat
  e : Nat
  f : Nat
  g : Nat
  h : Nat

/-- One round of the compression function: consume one `(K, W)` pair. -/
def sha256Round (s : Sha256State) (kw : Nat × Nat) : Sha256State :=
  let t1 := w32 (s.h + bsig1 s.e + ch s.e s.f s.g + kw.1 + kw.2)
  let t2 := w32 (bsig0 s.a + maj s.a s.b s.c)
  ⟨w32 (t1 + t2), s.a, s.b, s.c, w32 (s.d + t1), s.e, s.f, s.g⟩

/-- Compress one 64-byte block into the running 8-word hash value. -/
def sha256Compress (hv : List Nat) (block : List Nat) : List Nat :=
  let ws := sha256Extend (bytesToWords block).toArray 48
  let s0 : Sha256State :=
    ⟨hv.getD 0 0, hv.getD 1 0, hv.getD 2 0, hv.getD 3 0,
     hv.getD 4 0, hv.getD 5 0, hv.getD 6 0, hv.getD 7 0⟩
  let s := (sha256K.zip ws.toList).foldl sha256Round s0
  [w32 (hv.getD 0 0 + s.a), w32 (hv.getD 1 0 + s.b), w32 (hv.getD 2 0 + s.c),
   w32 (hv.getD 3 0 + s.d), w32 (hv.getD 4 0 + s.e), w32 (hv.getD 5 0 + s.f),
   w32 (hv.getD 6 0 + s.g), w32 (hv.getD 7 0 + s.h)]

/-- Split a byte list into 64-byte blocks. -/
def chunks64 : List Nat → List (List Nat)
  | [] => []
  | b :: rest => (b :: rest).take 64 :: chunks64 (rest.drop 63)
termination_by l => l.length
decreasing_by
  simp only [List.length_drop, List.length_cons]
  omega

/-- SHA-256 padding (FIPS 180-4 §5.1.1): `0x80`, zeros, 64-bit big-endian bit length. -/
def sha256Pad (msg : List Nat) : List Nat :=
  msg ++ [128] ++ List.replicate ((119 - msg.length % 64) % 64) 0 ++ be64 (8 * msg.length)

/-- SHA-256 of a byte list: the 32 digest bytes. -/
def sha256 (msg : List Nat) : List Nat :=
  ((chunks64 (sha256Pad msg)).foldl sha256Compress sha256IV).foldr (fun wd acc => be32 wd ++ acc) []

/-! ## HMAC-SHA256 (FIPS 198-1), as Node's `createHmac('sha256', key)` computes it -/

/-- The key, hashed if longer than the 64-byte block and zero-padded to 64 bytes. -/
def hmacKey0 (key : List Nat) : List Nat :=
  let k1 := if 64 < key.length then sha256 key else key
  k1 ++ List.replicate (64 - k1.length) 0

/-- HMAC-SHA256 of `msg` under `key`. -/
def hmacSha256 (key msg : List Nat) : List Nat :=
  let k0 := hmacKey0 key
  sha256 ((k0.map fun b => b ^^^ 92) ++ sha256 ((k0.map fun b => b ^^^ 54) ++ msg))

/-! ## UTF-8, base64 and `encodeURIComponent` -/

/-- UTF-8 encoding of one character (code points are valid scalars by `Char`). -/
def utf8Char (c : Char) : List Nat :=
  let n := c.toNat
  if n < 128 then [n]
  else if n < 2048 then [192 + n / 64, 128 + n % 64]
  else if n < 65536 then [224 + n / 4096, 128 + n / 64 % 64, 128 + n % 64]
  else [240 + n / 262144, 128 + n / 4096 % 64, 128 + n / 64 % 64, 128 + n % 64]

/-- UTF-8 encoding of a string as a byte list. -/
def utf8Encode (s : String) : List Nat := s.data.flatMap utf8Char

/-- The base64 alphabet (RFC 4648 §4), indexed 0-63. -/
def b64Alphabet : String :=
  "ABCDEFGHIJKLMNOPQRSTUVWXYZabcdefghijklmnopqrstuvwxyz0123456789+/"

/-- The base64 character for a 6-bit index. -/
def b64Char (n : Nat) : Char := b64Alphabet.data.getD n 'A'

/-- Base64 character stream of a byte list, `=`-padded (RFC 4648 §4). -/
def base64Chars : List Nat → List Char
  | [] => []
  | [b1] => [b64Char (b1 / 4), b64Char (b1 % 4 * 16), '=', '=']
  | [b1, b2] => [b64Char (b1 / 4), b64Char (b1 % 4 * 16 + b2 / 16), b64Char (b2 % 16 * 4), '=']
  | b1 :: b2 :: b3 :: rest =>
      b64Char (b1 / 4) :: b64Char (b1 % 4 * 16 + b2 / 16) ::
      b64Char (b2 % 16 * 4 + b3 / 64) :: b64Char (b3 % 64) :: base64Chars rest

/-- Base64 encoding of a byte list, as `Hmac.digest('base64')` returns it. -/
def base64Encode (bs : List Nat) : String := String.mk (base64Chars bs)

/-- The characters `encodeURIComponent` leaves unescaped (ECMA-262):
alphanumerics and `- _ . ! ~ * ' ( )`. -/
def isUnreservedJS (c : Char) : Bool :=
  c.isAlphanum || ['-', '_', '.', '!', '~', '*', Char.ofNat 39, '(', ')'].contains c

/-- Uppercase hexadecimal digit. -/
def hexDigit (n : Nat) : Char := "0123456789ABCDEF".data.getD n '0'

/-- Percent-escape of one byte, `%XX` with uppercase hex. -/
def percentByte (b : Nat) : List Char := ['%', hexDigit (b / 16 % 16), hexDigit (b % 16)]

/-- `encodeURIComponent` on one character: kept if unreserved, otherwise each
UTF-8 byte is percent-escaped. -/
def encodeChar (c : Char) : List Char :=
  if isUnreservedJS c then [c] else (utf8Char c).flatMap percentByte

/-- JavaScript's `encodeURIComponent` (ECMA-262), modelling the global used at
robot.ts:137. -/
def encodeURIComponent (s : String) : String := String.mk (s.data.flatMap encodeChar)

/-! ## The signature (robot.ts:133-141) -/

/-- The signature `Robot.request` computes when a secret is configured
(robot.ts:134-137): HMAC-SHA256 with key `secret` over the UTF-8 bytes of
the template string built from the timestamp, a newline and the secret,
base64-encoded and percent-encoded. -/
def sign (secret : String) (timestamp : Nat) : String :=
  encodeURIComponent (base64Encode
    (hmacSha256 (utf8Encode secret) (utf8Encode (toString timestamp ++ "\n" ++ secret))))

/-- The same computation, written from the spec §4.1's words: "compute
HMAC-SHA256 over the UTF-8 bytes of the string `<timestampMs>\n<secret>`
using `secret` as the key; base64-encode the digest; percent-encode the
base64 result". Kept separate so the code's pipeline can be compared
against the spec's sentence. -/
def signSpec (secret : String) (timestampMs : Nat) : String :=
  let digest := hmacSha256 (utf8Encode secret) (utf8Encode (toString timestampMs ++ "\n" ++ secret))
  encodeURIComponent (base64Encode digest)

/-! ## JSON values and `JSON.stringify`

`Json.undef` stands for JavaScript's `undefined`: `JSON.stringify` drops an
object field whose value is `undefined` and renders `undefined` array
elements as `null`. The builders place `undefined` exactly where the source
leaves a variable unassigned or reads an absent optional field. -/

inductive Json where
  | null : Json
  | undef : Json
  | bool (b : Bool) : Json
  | num (n : Int) : Json
  | str (s : String) : Json
  | arr (elems : List Json) : Json
  | obj (fields : List (String × Json)) : Json

/-- Lowercase hexadecimal digit (JSON `\u00xx` escapes are lowercase). -/
def hexDigitLC (n : Nat) : Char := "0123456789abcdef".data.getD n '0'

/-- JSON string escaping of one character, as `JSON.stringify` performs it. -/
def jsonEscape (c : Char) : List Char :=
  if c = '"' then ['\\', '"']
  else if c = '\\' then ['\\', '\\']
  else if c = Char.ofNat 8 then ['\\', 'b']
  else if c = Char.ofNat 9 then ['\\', 't']
  else if c = Char.ofNat 10 then ['\\', 'n']
  else if c = Char.ofNat 12 then ['\\', 'f']
  else if c = Char.ofNat 13 then ['\\', 'r']
  else if c.toNat < 32 then ['\\', 'u', '0', '0', hexDigitLC (c.toNat / 16), hexDigitLC (c.toNat % 16)]
  else [c]

/-- A JSON string literal: quotes around the escaped characters. -/
def quoteString (s : String) : String := String.mk ('"' :: s.data.flatMap jsonEscape ++ ['"'])

mutual

/-- `JSON.stringify` (no spacing): `undefined` object fields are dropped,
`undefined` array elements render as `null`. The program only ever
stringifies objects, so the top-level `undefined` case is unreachable. -/
def stringify : Json → String
  | .null => "null"
  | .undef => "null"
  | .bool b => cond b "true" "false"
  | .num n => toString n
  | .str s => quoteString s
  | .arr xs => "[" ++ String.intercalate "," (arrParts xs) ++ "]"
  | .obj fs => "\x7b" ++ String.intercalate "," (objParts fs) ++ "\x7d"

/-- Serialized elements of a JSON array. -/
def arrParts : List Json → List String
  | [] => []
  | v :: rest => stringify v :: arrParts rest

/-- Serialized `key:value` members of a JSON object, `undefined` values dropped. -/
def objParts : List (String × Json) → List String
  | [] => []
  | (_, .undef) :: rest => objParts rest
  | (k, v) :: rest => (quoteString k ++ ":" ++ stringify v) :: objParts rest

end

/-- Is a JSON value JavaScript's `undefined`? -/
def isUndef : Json → Bool
  | .undef => true
  | _ => false

/-- The keys `JSON.stringify` keeps at the top level of an object. -/
def topKeys : Json → List String
  | .obj fs => (fs.filter fun f => !(isUndef f.2)).map Prod.fst
  | _ => []

mutual

/-- Does the key `k` occur anywhere in the JSON value (at any depth)? -/
def hasKeyDeep (k : String) : Json → Bool
  | .obj fs => hasKeyFields k fs
  | .arr xs => hasKeyList k xs
  | _ => false

/-- `hasKeyDeep` over an object's field list. -/
def hasKeyFields (k : String) : List (String × Json) → Bool
  | [] => false
  | (k1, v) :: rest => k1 == k || hasKeyDeep k v || hasKeyFields k rest

/-- `hasKeyDeep` over an array's element list. -/
def hasKeyList (k : String) : List Json → Bool
  | [] => false
  | v :: rest => hasKeyDeep k v || hasKeyList k rest

end

/-! ## Constructor options and JavaScript truthiness (robot.ts:5-11, 72-97) -/

/-- `RobotConstructorOptions` (robot.ts:5-11): every field optional. -/
structure RobotConstructorOptions where
  url : Option String
  accessToken : Option String
  secret : Option String
  timeout : Option Int
  retries : Option Int
deriving DecidableEq

/-- JavaScript truthiness of an optional string: absent and `""` are falsy. -/
def strTruthy : Option String → Bool
  | none => false
  | some s => !(s == "")

/-- JavaScript `v || d` on an optional number: absent and `0` give the default. -/
def jsOr (v : Option Int) (d : Int) : Int :=
  match v with
  | none => d
  | some n => if n == 0 then d else n

/-- The fixed webhook URL derived from an access token (robot.ts:75). -/
def dingtalkUrl (token : String) : String :=
  "https://oapi.dingtalk.com/robot/send?access_token=" ++ token

/-- The private fields of a `Robot` after construction (robot.ts:66-69);
immutable, as the class never assigns them outside the constructor. -/
structure Robot where
  url : Option String
  secret : Option String
  timeout : Int
  retries : Int
deriving DecidableEq

/-- `this.#url` after the constructor (robot.ts:73-76): `opts.url`,
overridden by the derived URL when `opts.accessToken` is truthy. -/
def resolveUrl (url accessToken : Option String) : Option String :=
  match accessToken with
  | some t => if t == "" then url else some (dingtalkUrl t)
  | none => url

/-- The `Robot` constructor's field assignments (robot.ts:72-97):
`#url` via `resolveUrl`, `#secret = opts.secret`,
`#timeout = opts.timeout || 3000`, `#retries = opts.retries || 10`. -/
def mkRobot (opts : RobotConstructorOptions) : Robot :=
  { url := resolveUrl opts.url opts.accessToken
    secret := opts.secret
    timeout := jsOr opts.timeout 3000
    retries := jsOr opts.retries 10 }

/-! ## Query parameters (robot.ts:90-95, 132-142)

Both `Date.now()` reads of one dispatch (the signing timestamp at
robot.ts:134 and the interceptor's cache-buster at robot.ts:92) are
modelled by the same clock value `now`: the model freezes the clock for
the duration of assembling one request. -/

/-- The `params` object `Robot.request` builds (robot.ts:132-142): empty
unless `this.#secret` is truthy, else `timestamp` and `sign`. -/
def signedParams (secret : Option String) (now : Nat) : List (String × String) :=
  match secret with
  | some s => if s == "" then [] else [("timestamp", toString now), ("sign", sign s now)]
  | none => []

/-- The request interceptor (robot.ts:90-95): add `_ = Date.now()` to the
params of every outgoing request. -/
def withCacheBust (params : List (String × String)) (now : Nat) : List (String × String) :=
  params ++ [("_", toString now)]

/-- The full query-parameter list of one outgoing request. -/
def requestParams (r : Robot) (now : Nat) : List (String × String) :=
  withCacheBust (signedParams r.secret now) now

/-! ## The transport and the retry policy (robot.ts:84-88, 99-124) -/

/-- The remote response envelope `{errcode, errmsg}` (spec §3). -/
structure Envelope where
  errcode : Int
  errmsg : String
deriving DecidableEq

/-- One HTTP exchange, as the transport reports it: a response with a
status and a parsed JSON body, or a network-level failure (no response)
with an error code and message. -/
inductive TransportResult where
  | response (status : Nat) (body : Envelope) : TransportResult
  | netError (code : String) (message : String) : TransportResult
deriving DecidableEq

/-- The axios error object the retry predicate inspects: `code`,
`message`, `response.status` when a response exists, and the request
method from `config` (always `post` here, robot.ts:146). -/
structure AxiosError where
  code : Option String
  message : String
  responseStatus : Option Nat
  method : String
deriving DecidableEq

/-- Modelled from the axios library: the `code` of an error axios raises
for a response failing `validateStatus` (`ERR_BAD_REQUEST` for status
< 500, `ERR_BAD_RESPONSE` otherwise). -/
def statusErrorCode (status : Nat) : String :=
  if status < 500 then "ERR_BAD_REQUEST" else "ERR_BAD_RESPONSE"

/-- Modelled from the axios library: the message of a status error. -/
def statusErrorMessage (status : Nat) : String :=
  "Request failed with status code " ++ toString status

/-- One attempt through axios with the instance's `validateStatus`
(robot.ts:85-87): a status in `[200, 300)` fulfills with the body, any
other outcome rejects with an `AxiosError`. -/
def attemptOutcome : TransportResult → Except AxiosError Envelope
  | .response st body =>
      if 200 ≤ st && st < 300 then Except.ok body
      else Except.error ⟨some (statusErrorCode st), statusErrorMessage st, some st, "post"⟩
  | .netError code msg => Except.error ⟨some code, msg, none, "post"⟩

/-- Modelled from the is-retry-allowed package (used by axios-retry's
`isNetworkError`): error codes never worth retrying. -/
def retryDenylist : List String :=
  ["ENOTFOUND", "ENETUNREACH", "UNABLE_TO_GET_ISSUER_CERT", "UNABLE_TO_GET_CRL",
   "UNABLE_TO_DECRYPT_CERT_SIGNATURE", "UNABLE_TO_DECRYPT_CRL_SIGNATURE",
   "UNABLE_TO_DECODE_ISSUER_PUBLIC_KEY", "CERT_SIGNATURE_FAILURE", "CRL_SIGNATURE_FAILURE",
   "CERT_NOT_YET_VALID", "CERT_HAS_EXPIRED", "CRL_NOT_YET_VALID", "CRL_HAS_EXPIRED",
   "ERROR_IN_CERT_NOT_BEFORE_FIELD", "ERROR_IN_CERT_NOT_AFTER_FIELD",
   "ERROR_IN_CRL_LAST_UPDATE_FIELD", "ERROR_IN_CRL_NEXT_UPDATE_FIELD",
   "OUT_OF_MEM", "DEPTH_ZERO_SELF_SIGNED_CERT", "SELF_SIGNED_CERT_IN_CHAIN",
   "UNABLE_TO_GET_ISSUER_CERT_LOCALLY", "UNABLE_TO_VERIFY_LEAF_SIGNATURE",
   "CERT_CHAIN_TOO_LONG", "CERT_REVOKED", "INVALID_CA", "PATH_LENGTH_EXCEEDED",
   "INVALID_PURPOSE", "CERT_UNTRUSTED", "CERT_REJECTED", "HOSTNAME_MISMATCH"]

/-- Modelled from the is-retry-allowed package: a coded error is allowed
to retry unless its code is on the denylist. -/
def isRetryAllowed (err : AxiosError) : Bool :=
  match err.code with
  | some c => !(retryDenylist.contains c)
  | none => true

/-- Modelled from the axios-retry library: a network error has no
response, a code other than `ECONNABORTED`, and passes is-retry-allowed. -/
def isNetworkError (err : AxiosError) : Bool :=
  err.responseStatus == none && err.code.isSome && !(err.code == some "ECONNABORTED") &&
    isRetryAllowed err

/-- Modelled from the axios-retry library: the HTTP methods it treats as
idempotent. -/
def idempotentMethods : List String := ["get", "head", "options", "put", "delete"]

/-- Modelled from the axios-retry library: not aborted, and either no
response or a 5xx status. -/
def isRetryableError (err : AxiosError) : Bool :=
  !(err.code == some "ECONNABORTED") &&
    (err.responseStatus == none ||
      (match err.responseStatus with
       | some st => decide (500 ≤ st) && decide (st ≤ 599)
       | none => false))

/-- Modelled from the axios-retry library: retryable and of an idempotent
method. -/
def isIdempotentRequestError (err : AxiosError) : Bool :=
  isRetryableError err && idempotentMethods.contains err.method

/-- Modelled from the axios-retry library:
`isNetworkError || isIdempotentRequestError`. -/
def isNetworkOrIdempotentRequestError (err : AxiosError) : Bool :=
  isNetworkError err || isIdempotentRequestError err

/-- Does `err.message` contain the substring `sub`? (`String.includes`). -/
def strIncludes (s sub : String) : Bool := decide (sub.data <:+: s.data)

/-- The `retryCondition` passed to axios-retry (robot.ts:105-123),
translated clause for clause. -/
def retryCondition (err : AxiosError) : Bool :=
  if isNetworkOrIdempotentRequestError err then true
  else if err.code == some "ECONNABORTED" && strIncludes err.message "timeout" then true
  else if err.code == some "ETIMEDOUT" then true
  else if (match err.responseStatus with
           | some st => decide (500 ≤ st)
           | none => false) then true
  else false

/-- The `retryDelay` passed to axios-retry (robot.ts:102-104): a constant
1000 ms whatever the retry count. -/
def retryDelay (_retryCount : Nat) : Nat := 1000

/-- The `shouldResetTimeout` flag passed to axios-retry (robot.ts:101):
every retried attempt gets the full configured timeout again. -/
def shouldResetTimeout : Bool := true

/-- What one attempt cost: the delay waited before it was issued, and the
per-attempt timeout it ran under. -/
structure AttemptRecord where
  delayBefore : Nat
  timeout : Int
deriving DecidableEq

/-- The axios-retry loop (robot.ts:99-124) against an attempt-indexed
transport oracle: attempt `idx`; on a rejection, retry while the retry
budget `remaining` is positive and `retryCondition` holds, waiting
`retryDelay` and (because `shouldResetTimeout` is set) granting the full
configured timeout again. Returns the settled transport outcome and the
record of every attempt made. -/
def runAttempts (timeout : Int) (transport : Nat → TransportResult)
    (idx remaining : Nat) : Except AxiosError Envelope × List AttemptRecord :=
  let rec0 : AttemptRecord := ⟨if idx = 0 then 0 else retryDelay idx, timeout⟩
  match attemptOutcome (transport idx) with
  | Except.ok env => (Except.ok env, [rec0])
  | Except.error e =>
    match remaining with
    | 0 => (Except.error e, [rec0])
    | r + 1 =>
      if retryCondition e then
        let p := runAttempts timeout transport (idx + 1) r
        (p.1, rec0 :: p.2)
      else (Except.error e, [rec0])

/-! ## `Robot.request` and the send outcome (robot.ts:127-163) -/

/-- How one `send` settles: remote success, remote rejection with the
envelope's `errcode`/`errmsg` (robot.ts:156-161), or a transport error
surviving the retry budget. -/
inductive SendOutcome where
  | success : SendOutcome
  | remoteRejected (errcode : Int) (errmsg : String) : SendOutcome
  | transportFailed (err : AxiosError) : SendOutcome
deriving DecidableEq

/-- The message of the error thrown on a non-zero `errcode` (robot.ts:158-160). -/
def rejectionMessage (errcode : Int) (errmsg : String) : String :=
  "request dingtalk fail, errorcode \x27" ++ toString errcode ++ "\x27, errormsg \x27"
    ++ errmsg ++ "\x27"

/-- The result of `Robot.request`: `noop` when the guard at robot.ts:128-130
returns without any network activity (the caller awaits `undefined`, which
resolves successfully), else the settled outcome with the attempt trace. -/
inductive SendResult where
  | noop : SendResult
  | settled (outcome : SendOutcome) (trace : List AttemptRecord) : SendResult
deriving DecidableEq

/-- How many HTTP attempts a `send` performed. -/
def SendResult.attempts : SendResult → Nat
  | .noop => 0
  | .settled _ trace => trace.length

/-- Did the `send` complete successfully for its awaiting caller? A `noop`
resolves (to `undefined`), and a settled remote success resolves. -/
def SendResult.isSuccess : SendResult → Bool
  | .noop => true
  | .settled .success _ => true
  | .settled _ _ => false

/-- `Robot.request` (robot.ts:127-163): no-op when `this.#url` is falsy;
otherwise run the retried transport and map the envelope — a non-zero
`errcode` throws (remote rejection), a zero `errcode` resolves. The
serialized payload `data` travels in the request body and does not
influence the settling. -/
def Robot.request (r : Robot) (_data : Json) (transport : Nat → TransportResult) : SendResult :=
  if !(strTruthy r.url) then .noop
  else
    match runAttempts r.timeout transport 0 r.retries.toNat with
    | (Except.ok env, trace) =>
        if env.errcode ≠ 0 then .settled (.remoteRejected env.errcode env.errmsg) trace
        else .settled .success trace
    | (Except.error e, trace) => .settled (.transportFailed e) trace

/-- The wire request `Robot.request` assembles when enabled (robot.ts:144-154):
POST to `#url` with the configured timeout, the JSON content type, the
query params and the stringified body. `none` when disabled: zero network
calls. -/
structure WireRequest where
  method : String
  url : String
  timeout : Int
  contentType : String
  params : List (String × String)
  data : String
deriving DecidableEq

/-- The outgoing wire request of one `send`, or `none` when the dispatcher
is disabled. -/
def Robot.wireOf (r : Robot) (data : Json) (now : Nat) : Option WireRequest :=
  if !(strTruthy r.url) then none
  else some ⟨"POST", r.url.getD "", r.timeout, "application/json", requestParams r now,
    stringify data⟩

/-! ## Message builders (robot.ts:13-63, 165-231) -/

/-- `IMentions` (robot.ts:13-17). -/
structure IMentions where
  atMobiles : Option (List String)
  atUserIds : Option (List String)
  isAtAll : Option Bool
deriving DecidableEq

/-- An optional value as JSON: absent is `undefined`. -/
def optJson (f : α → Json) : Option α → Json
  | none => Json.undef
  | some a => f a

/-- The `at` object as serialized. -/
def mentionsJson (m : IMentions) : Json :=
  Json.obj [("atMobiles", optJson (fun l => Json.arr (l.map Json.str)) m.atMobiles),
            ("atUserIds", optJson (fun l => Json.arr (l.map Json.str)) m.atUserIds),
            ("isAtAll", optJson Json.bool m.isAtAll)]

/-- `ITextReq` (robot.ts:26-29). -/
structure ITextReq where
  content : String
  «at» : Option IMentions
deriving DecidableEq

/-- `IMarkdownReq` (robot.ts:31-35). -/
structure IMarkdownReq where
  title : String
  text : String
  «at» : Option IMentions
deriving DecidableEq

/-- `ILinkReq` (robot.ts:19-24). -/
structure ILinkReq where
  text : String
  title : String
  messageUrl : String
  picUrl : Option String
deriving DecidableEq

/-- `IActionCardButton` (robot.ts:37-40). -/
structure IActionCardButton where
  title : String
  actionURL : String
deriving DecidableEq

/-- `IActionCardReq` (robot.ts:41-53): a two-way union. -/
inductive IActionCardReq where
  | single (title text singleTitle singleURL : String) : IActionCardReq
  | multi (title text btnOrientation : String) (btns : List IActionCardButton) : IActionCardReq
deriving DecidableEq

/-- `IFeedCardLink` (robot.ts:55-59). -/
structure IFeedCardLink where
  title : String
  messageURL : String
  picURL : String
deriving DecidableEq

/-- `IFeedCardReq` (robot.ts:61-63). -/
structure IFeedCardReq where
  links : List IFeedCardLink
deriving DecidableEq

/-- The payload object built at robot.ts:177-183: `at` sits inside the
`text` object, `undefined` when never assigned. -/
def textPayload (content : String) (mention : Option IMentions) : Json :=
  Json.obj [("msgtype", Json.str "text"),
            ("text", Json.obj [("content", Json.str content),
                               ("at", optJson mentionsJson mention)])]

/-- The overloaded argument of `Robot.text` (robot.ts:165-167): a bare
content string, or a structured `ITextReq`. -/
def textOf : Sum String ITextReq → Json
  | Sum.inl content => textPayload content none
  | Sum.inr req => textPayload req.content req.«at»

/-- The payload object built at robot.ts:202-209. -/
def markdownPayload (title text : String) (mention : Option IMentions) : Json :=
  Json.obj [("msgtype", Json.str "markdown"),
            ("markdown", Json.obj [("title", Json.str title),
                                   ("text", Json.str text),
                                   ("at", optJson mentionsJson mention)])]

/-- The overloaded argument of `Robot.markdown` (robot.ts:186-188): a
`(title, text)` pair, or a structured `IMarkdownReq`. -/
def markdownOf : Sum (String × String) IMarkdownReq → Json
  | Sum.inl (title, text) => markdownPayload title text none
  | Sum.inr req => markdownPayload req.title req.text req.«at»

/-- The link request as serialized. -/
def linkJson (d : ILinkReq) : Json :=
  Json.obj [("text", Json.str d.text), ("title", Json.str d.title),
            ("messageUrl", Json.str d.messageUrl), ("picUrl", optJson Json.str d.picUrl)]

/-- The payload of `Robot.link` (robot.ts:212-217). -/
def linkOf (d : ILinkReq) : Json :=
  Json.obj [("msgtype", Json.str "link"), ("link", linkJson d)]

/-- One action-card button as serialized. -/
def buttonJson (b : IActionCardButton) : Json :=
  Json.obj [("title", Json.str b.title), ("actionURL", Json.str b.actionURL)]

/-- The action-card request as serialized, passed through unmodified. -/
def actionCardJson : IActionCardReq → Json
  | .single title text singleTitle singleURL =>
      Json.obj [("title", Json.str title), ("text", Json.str text),
                ("singleTitle", Json.str singleTitle), ("singleURL", Json.str singleURL)]
  | .multi title text btnOrientation btns =>
      Json.obj [("title", Json.str title), ("text", Json.str text),
                ("btnOrientation", Json.str btnOrientation),
                ("btns", Json.arr (btns.map buttonJson))]

/-- The payload of `Robot.actionCard` (robot.ts:219-224). -/
def actionCardOf (d : IActionCardReq) : Json :=
  Json.obj [("msgtype", Json.str "actionCard"), ("actionCard", actionCardJson d)]

/-- One feed-card link as serialized. -/
def feedCardLinkJson (l : IFeedCardLink) : Json :=
  Json.obj [("title", Json.str l.title), ("messageURL", Json.str l.messageURL),
            ("picURL", Json.str l.picURL)]

/-- The payload of `Robot.feedCard` (robot.ts:226-231). -/
def feedCardOf (d : IFeedCardReq) : Json :=
  Json.obj [("msgtype", Json.str "feedCard"),
            ("feedCard", Json.obj [("links", Json.arr (d.links.map feedCardLinkJson))])]

/-- `Robot.text` (robot.ts:165-184): normalize and dispatch. -/
def Robot.text (r : Robot) (arg : Sum String ITextReq)
    (transport : Nat → TransportResult) : SendResult :=
  r.request (textOf arg) transport

/-- `Robot.markdown` (robot.ts:186-210): normalize and dispatch. -/
def Robot.markdown (r : Robot) (arg : Sum (String × String) IMarkdownReq)
    (transport : Nat → TransportResult) : SendResult :=
  r.request (markdownOf arg) transport

/-- `Robot.link` (robot.ts:212-217). -/
def Robot.link (r : Robot) (d : ILinkReq) (transport : Nat → TransportResult) : SendResult :=
  r.request (linkOf d) transport

/-- `Robot.actionCard` (robot.ts:219-224). -/
def Robot.actionCard (r : Robot) (d : IActionCardReq)
    (transport : Nat → TransportResult) : SendResult :=
  r.request (actionCardOf d) transport

/-- `Robot.feedCard` (robot.ts:226-231). -/
def Robot.feedCard (r : Robot) (d : IFeedCardReq)
    (transport : Nat → TransportResult) : SendResult :=
  r.request (feedCardOf d) transport

/-! ## Lemmas about the retry loop -/

/-- A fulfilled first attempt settles at once with a single attempt record. -/
theorem runAttempts_ok (timeout : Int) (transport : Nat → TransportResult)
    (idx remaining : Nat) (env : Envelope)
    (h : attemptOutcome (transport idx) = Except.ok env) :
    runAttempts timeout transport idx remaining =
      (Except.ok env, [⟨if idx = 0 then 0 else retryDelay idx, timeout⟩]) := by
  rw [runAttempts, h]

/-- A rejected attempt with no retry budget left settles with the error. -/
theorem runAttempts_exhausted (timeout : Int) (transport : Nat → TransportResult)
    (idx : Nat) (e : AxiosError)
    (h : attemptOutcome (transport idx) = Except.error e) :
    runAttempts timeout transport idx 0 =
      (Except.error e, [⟨if idx = 0 then 0 else retryDelay idx, timeout⟩]) := by
  rw [runAttempts, h]

/-- A rejected attempt the retry predicate refuses settles with the error,
whatever budget remains. -/
theorem runAttempts_noRetry (timeout : Int) (transport : Nat → TransportResult)
    (idx remaining : Nat) (e : AxiosError)
    (h : attemptOutcome (transport idx) = Except.error e)
    (hc : retryCondition e = false) :
    runAttempts timeout transport idx remaining =
      (Except.error e, [⟨if idx = 0 then 0 else retryDelay idx, timeout⟩]) := by
  rw [runAttempts, h]
  cases remaining with
  | zero => rfl
  | succ r => simp [hc]

/-- A rejected attempt the retry predicate accepts, with budget left,
recurses on the next attempt and prepends its own record. -/
theorem runAttempts_retry (timeout : Int) (transport : Nat → TransportResult)
    (idx r : Nat) (e : AxiosError)
    (h : attemptOutcome (transport idx) = Except.error e)
    (hc : retryCondition e = true) :
    runAttempts timeout transport idx (r + 1) =
      ((runAttempts timeout transport (idx + 1) r).1,
        ⟨if idx = 0 then 0 else retryDelay idx, timeout⟩ ::
          (runAttempts timeout transport (idx + 1) r).2) := by
  rw [runAttempts, h]
  simp [hc]

/-- Every attempt record of a loop started past attempt 0 is a retry record:
the fixed 1000 ms delay and the full configured timeout. -/
theorem runAttempts_retryRecords (timeout : Int) (transport : Nat → TransportResult) :
    ∀ remaining idx, idx ≠ 0 →
      ∀ rec ∈ (runAttempts timeout transport idx remaining).2,
        rec = ⟨1000, timeout⟩ := by
  intro remaining
  induction remaining with
  | zero =>
    intro idx hidx rec hrec
    rcases h : attemptOutcome (transport idx) with e | env
    · rw [runAttempts_exhausted timeout transport idx e h] at hrec
      simp [hidx] at hrec
      simp [hrec, retryDelay]
    · rw [runAttempts_ok timeout transport idx 0 env h] at hrec
      simp [hidx] at hrec
      simp [hrec, retryDelay]
  | succ r ih =>
    intro idx hidx rec hrec
    rcases h : attemptOutcome (transport idx) with e | env
    · rcases hc : retryCondition e with _ | _
      · rw [runAttempts_noRetry timeout transport idx (r + 1) e h hc] at hrec
        simp [hidx] at hrec
        simp [hrec, retryDelay]
      · rw [runAttempts_retry timeout transport idx r e h hc] at hrec
        rcases List.mem_cons.mp hrec with h1 | h1
        · simp [hidx] at h1
          simp [h1, retryDelay]
        · exact ih (idx + 1) (Nat.succ_ne_zero idx) rec h1
    · rw [runAttempts_ok timeout transport idx (r + 1) env h] at hrec
      simp [hidx] at hrec
      simp [hrec, retryDelay]

/-- The first record of the trace: the first attempt of a dispatch (index 0)
is issued without delay, under the configured timeout. -/
theorem runAttempts_headRecord (timeout : Int) (transport : Nat → TransportResult)
    (remaining : Nat) :
    (runAttempts timeout transport 0 remaining).2.head? = some ⟨0, timeout⟩ := by
  rcases h : attemptOutcome (transport 0) with e | env
  · cases remaining with
    | zero => rw [runAttempts_exhausted timeout transport 0 e h]; rfl
    | succ r =>
      rcases hc : retryCondition e with _ | _
      · rw [runAttempts_noRetry timeout transport 0 (r + 1) e h hc]; rfl
      · rw [runAttempts_retry timeout transport 0 r e h hc]; rfl
  · rw [runAttempts_ok timeout transport 0 remaining env h]; rfl

/-- `k` rejected-but-retryable attempts followed by a fulfilled one settle
with the fulfilled body after exactly `k + 1` attempts. -/
theorem runAttempts_failsThenOk (timeout : Int) (transport : Nat → TransportResult)
    (env : Envelope) :
    ∀ k idx remaining, k ≤ remaining →
      (∀ i, i < k → ∃ e, attemptOutcome (transport (idx + i)) = Except.error e ∧
        retryCondition e = true) →
      attemptOutcome (transport (idx + k)) = Except.ok env →
      (runAttempts timeout transport idx remaining).1 = Except.ok env ∧
        (runAttempts timeout transport idx remaining).2.length = k + 1 := by
  intro k
  induction k with
  | zero =>
    intro idx remaining _ _ hok
    rw [runAttempts_ok timeout transport idx remaining env (by simpa using hok)]
    exact ⟨rfl, rfl⟩
  | succ k ih =>
    intro idx remaining hk hfail hok
    obtain ⟨e, he, hc⟩ := hfail 0 (Nat.succ_pos k)
    rcases remaining with _ | r
    · omega
    rw [runAttempts_retry timeout transport idx r e (by simpa using he) hc]
    have hfail' : ∀ i, i < k → ∃ e, attemptOutcome (transport (idx + 1 + i)) = Except.error e ∧
        retryCondition e = true := by
      intro i hi
      have := hfail (i + 1) (by omega)
      simpa [Nat.add_assoc, Nat.add_comm 1 i] using this
    have hok' : attemptOutcome (transport (idx + 1 + k)) = Except.ok env := by
      have : idx + 1 + k = idx + (k + 1) := by omega
      rw [this]; exact hok
    obtain ⟨h1, h2⟩ := ih (idx + 1) r (by omega) hfail' hok'
    exact ⟨h1, by simp [h2]⟩

/-- The tail of a dispatch's trace (everything after the first attempt)
consists of retry records: 1000 ms delay, full configured timeout. -/
theorem runAttempts_tailRecords (timeout : Int) (transport : Nat → TransportResult)
    (remaining : Nat) :
    ∀ rec ∈ (runAttempts timeout transport 0 remaining).2.tail, rec = ⟨1000, timeout⟩ := by
  intro rec hrec
  rcases h : attemptOutcome (transport 0) with e | env
  · cases remaining with
    | zero =>
      rw [runAttempts_exhausted timeout transport 0 e h] at hrec
      simp at hrec
    | succ r =>
      rcases hc : retryCondition e with _ | _
      · rw [runAttempts_noRetry timeout transport 0 (r + 1) e h hc] at hrec
        simp at hrec
      · rw [runAttempts_retry timeout transport 0 r e h hc] at hrec
        exact runAttempts_retryRecords timeout transport r 1 one_ne_zero rec hrec
  · rw [runAttempts_ok timeout transport 0 remaining env h] at hrec
    simp at hrec

/-! ## Facts about attempt outcomes and the retry predicate -/

/-- `validateStatus` accepts exactly `[200, 300)`: such a response fulfills. -/
theorem attemptOutcome_2xx (st : Nat) (body : Envelope) (h1 : 200 ≤ st) (h2 : st < 300) :
    attemptOutcome (TransportResult.response st body) = Except.ok body := by
  simp [attemptOutcome, h1, h2]

/-- A `[400, 500)` response rejects with the axios client-error object. -/
theorem attemptOutcome_4xx (st : Nat) (body : Envelope) (h1 : 400 ≤ st) (h2 : st < 500) :
    attemptOutcome (TransportResult.response st body) =
      Except.error ⟨some "ERR_BAD_REQUEST", statusErrorMessage st, some st, "post"⟩ := by
  have hn : ¬ st < 300 := by omega
  simp [attemptOutcome, hn, statusErrorCode, h2]

/-- The error object of an HTTP 500 response. -/
def e500 : AxiosError :=
  ⟨some "ERR_BAD_RESPONSE", statusErrorMessage 500, some 500, "post"⟩

/-- A 500 response rejects with `e500`. -/
theorem attemptOutcome_500 (body : Envelope) :
    attemptOutcome (TransportResult.response 500 body) = Except.error e500 := by
  rfl

/-- The source's `retryCondition` accepts a 500-status error (robot.ts:118-120). -/
theorem retryCondition_e500 : retryCondition e500 = true := by decide

/-- The source's `retryCondition` rejects a client-error status: a POST is
not idempotent, the code is not a timeout code, and the status is below 500
(robot.ts:105-123). -/
theorem retryCondition_clientError (st : Nat) (msg : String) (h : st < 500) :
    retryCondition ⟨some "ERR_BAD_REQUEST", msg, some st, "post"⟩ = false := by
  have h5 : ¬ 500 ≤ st := by omega
  simp [retryCondition, isNetworkOrIdempotentRequestError, isNetworkError,
    isIdempotentRequestError, isRetryableError, idempotentMethods, h5]

/-! ## Claim theorems: transport behaviour -/

/-- Claim C3: a transport-successful (2xx) response settles `send` on the
very first attempt — with a remote-rejection failure carrying the
envelope's `errcode` and `errmsg` when `errcode ≠ 0`, and with success when
`errcode = 0`; either way exactly one attempt is made. -/
theorem send_settles_on_2xx_envelope (r : Robot) (data : Json)
    (transport : Nat → TransportResult) (st : Nat) (body : Envelope)
    (hurl : strTruthy r.url = true)
    (htr : transport 0 = TransportResult.response st body)
    (h1 : 200 ≤ st) (h2 : st < 300) :
    (body.errcode ≠ 0 →
      r.request data transport =
        SendResult.settled (SendOutcome.remoteRejected body.errcode body.errmsg)
          [⟨0, r.timeout⟩] ∧
      (r.request data transport).attempts = 1) ∧
    (body.errcode = 0 →
      r.request data transport = SendResult.settled SendOutcome.success [⟨0, r.timeout⟩] ∧
      (r.request data transport).attempts = 1) := by
  have hout : attemptOutcome (transport 0) = Except.ok body := by
    rw [htr]; exact attemptOutcome_2xx st body h1 h2
  have hrun := runAttempts_ok r.timeout transport 0 r.retries.toNat body hout
  constructor
  · intro hcode
    rw [Robot.request, hurl, hrun]
    simp [hcode, SendResult.attempts]
  · intro hcode
    rw [Robot.request, hurl, hrun]
    simp [hcode, SendResult.attempts]

/-- A concrete run of `send_settles_on_2xx_envelope`: HTTP 200 with
`{errcode: 1, errmsg: "token invalid"}` rejects remotely after one attempt. -/
theorem send_settles_on_2xx_envelope_witness :
    (((1 : Int) ≠ 0 →
      (mkRobot ⟨some "https://example.invalid/hook", none, none, none, none⟩).request
          (textOf (Sum.inl "hello")) (fun _ => TransportResult.response 200 ⟨1, "token invalid"⟩) =
        SendResult.settled (SendOutcome.remoteRejected 1 "token invalid") [⟨0, 3000⟩] ∧
      ((mkRobot ⟨some "https://example.invalid/hook", none, none, none, none⟩).request
          (textOf (Sum.inl "hello"))
          (fun _ => TransportResult.response 200 ⟨1, "token invalid"⟩)).attempts = 1) ∧
    ((1 : Int) = 0 →
      (mkRobot ⟨some "https://example.invalid/hook", none, none, none, none⟩).request
          (textOf (Sum.inl "hello")) (fun _ => TransportResult.response 200 ⟨1, "token invalid"⟩) =
        SendResult.settled SendOutcome.success [⟨0, 3000⟩] ∧
      ((mkRobot ⟨some "https://example.invalid/hook", none, none, none, none⟩).request
          (textOf (Sum.inl "hello"))
          (fun _ => TransportResult.response 200 ⟨1, "token invalid"⟩)).attempts = 1)) :=
  send_settles_on_2xx_envelope
    (mkRobot ⟨some "https://example.invalid/hook", none, none, none, none⟩)
    (textOf (Sum.inl "hello")) (fun _ => TransportResult.response 200 ⟨1, "token invalid"⟩)
    200 ⟨1, "token invalid"⟩ rfl rfl (by decide) (by decide)

/-- Claim C4: a dispatcher constructed with neither a `url` nor an
`accessToken` is disabled — every `send` is an immediate no-op that the
caller observes as success, with zero attempts and no wire request. -/
theorem send_disabled_noop (secret : Option String) (timeout retries : Option Int)
    (data : Json) (transport : Nat → TransportResult) (now : Nat) :
    (mkRobot ⟨none, none, secret, timeout, retries⟩).request data transport =
        SendResult.noop ∧
    ((mkRobot ⟨none, none, secret, timeout, retries⟩).request data transport).isSuccess
        = true ∧
    ((mkRobot ⟨none, none, secret, timeout, retries⟩).request data transport).attempts
        = 0 ∧
    (mkRobot ⟨none, none, secret, timeout, retries⟩).wireOf data now = none := by
  refine ⟨?_, ?_, ?_, ?_⟩ <;>
    simp [Robot.request, Robot.wireOf, mkRobot, resolveUrl, strTruthy,
      SendResult.isSuccess, SendResult.attempts]

/-- Claim C8: a `[400, 500)` first response settles `send` as a transport
failure after exactly one attempt (client errors are never retried), and a
2xx response with non-zero `errcode` likewise settles after exactly one
attempt (application-level rejection is never retried). -/
theorem send_no_retry_on_client_error (r : Robot) (data : Json)
    (transport : Nat → TransportResult) (st : Nat) (body : Envelope)
    (hurl : strTruthy r.url = true)
    (htr : transport 0 = TransportResult.response st body)
    (h1 : 400 ≤ st) (h2 : st < 500) :
    r.request data transport =
      SendResult.settled
        (SendOutcome.transportFailed
          ⟨some "ERR_BAD_REQUEST", statusErrorMessage st, some st, "post"⟩)
        [⟨0, r.timeout⟩] ∧
    (r.request data transport).attempts = 1 ∧
    (∀ (transport2 : Nat → TransportResult) (st2 : Nat) (body2 : Envelope),
      transport2 0 = TransportResult.response st2 body2 → 200 ≤ st2 → st2 < 300 →
      body2.errcode ≠ 0 → (r.request data transport2).attempts = 1) := by
  have hout : attemptOutcome (transport 0) =
      Except.error ⟨some "ERR_BAD_REQUEST", statusErrorMessage st, some st, "post"⟩ := by
    rw [htr]; exact attemptOutcome_4xx st body h1 h2
  have hrun := runAttempts_noRetry r.timeout transport 0 r.retries.toNat _ hout
    (retryCondition_clientError st (statusErrorMessage st) h2)
  refine ⟨?_, ?_, ?_⟩
  · rw [Robot.request, hurl, hrun]
    simp
  · rw [Robot.request, hurl, hrun]
    simp [SendResult.attempts]
  · intro transport2 st2 body2 htr2 h21 h22 hcode
    have hout2 : attemptOutcome (transport2 0) = Except.ok body2 := by
      rw [htr2]; exact attemptOutcome_2xx st2 body2 h21 h22
    have hrun2 := runAttempts_ok r.timeout transport2 0 r.retries.toNat body2 hout2
    rw [Robot.request, hurl, hrun2]
    simp [hcode, SendResult.attempts]

/-- A concrete run of `send_no_retry_on_client_error`: an HTTP 400 response
settles as a transport failure after one attempt. -/
theorem send_no_retry_on_client_error_witness :
    (mkRobot ⟨some "https://example.invalid/hook", none, none, none, none⟩).request
        (textOf (Sum.inl "hello")) (fun _ => TransportResult.response 400 ⟨0, "bad"⟩) =
      SendResult.settled
        (SendOutcome.transportFailed
          ⟨some "ERR_BAD_REQUEST", statusErrorMessage 400, some 400, "post"⟩)
        [⟨0, 3000⟩] ∧
    ((mkRobot ⟨some "https://example.invalid/hook", none, none, none, none⟩).request
        (textOf (Sum.inl "hello"))
        (fun _ => TransportResult.response 400 ⟨0, "bad"⟩)).attempts = 1 ∧
    (∀ (transport2 : Nat → TransportResult) (st2 : Nat) (body2 : Envelope),
      transport2 0 = TransportResult.response st2 body2 → 200 ≤ st2 → st2 < 300 →
      body2.errcode ≠ 0 →
      ((mkRobot ⟨some "https://example.invalid/hook", none, none, none, none⟩).request
        (textOf (Sum.inl "hello")) transport2).attempts = 1) :=
  send_no_retry_on_client_error
    (mkRobot ⟨some "https://example.invalid/hook", none, none, none, none⟩)
    (textOf (Sum.inl "hello")) (fun _ => TransportResult.response 400 ⟨0, "bad"⟩)
    400 ⟨0, "bad"⟩ rfl rfl (by decide) (by decide)

/-- Claim C1: with retry budget `n`, a transport that responds 500 on each
of the first `n` attempts and then transport-successfully with
`errcode = 0` makes `send` succeed after exactly `n + 1` attempts; the
first attempt is undelayed and every retry attempt waits the fixed 1000 ms
and runs under the full configured per-attempt timeout again. -/
theorem send_succeeds_after_500_retries (n : Nat) (r : Robot) (data : Json)
    (transport : Nat → TransportResult) (okSt : Nat) (okBody : Envelope)
    (hurl : strTruthy r.url = true) (hret : r.retries = (n : Int))
    (hfail : ∀ i, i < n → ∃ b, transport i = TransportResult.response 500 b)
    (hok : transport n = TransportResult.response okSt okBody)
    (h1 : 200 ≤ okSt) (h2 : okSt < 300) (hcode : okBody.errcode = 0) :
    ∃ trace, r.request data transport = SendResult.settled SendOutcome.success trace ∧
      trace.length = n + 1 ∧
      trace.head? = some ⟨0, r.timeout⟩ ∧
      ∀ rec ∈ trace.tail, rec = ⟨1000, r.timeout⟩ := by
  have htn : r.retries.toNat = n := by rw [hret]; exact Int.toNat_natCast n
  have hfail' : ∀ i, i < n → ∃ e, attemptOutcome (transport (0 + i)) = Except.error e ∧
      retryCondition e = true := by
    intro i hi
    obtain ⟨b, hb⟩ := hfail i hi
    refine ⟨e500, ?_, retryCondition_e500⟩
    rw [Nat.zero_add, hb]
    exact attemptOutcome_500 b
  have hok' : attemptOutcome (transport (0 + n)) = Except.ok okBody := by
    rw [Nat.zero_add, hok]
    exact attemptOutcome_2xx okSt okBody h1 h2
  obtain ⟨hfst, hlen⟩ := runAttempts_failsThenOk r.timeout transport okBody n 0
    r.retries.toNat (by omega) hfail' hok'
  refine ⟨(runAttempts r.timeout transport 0 r.retries.toNat).2, ?_, by rw [hlen], ?_, ?_⟩
  · have hpair : runAttempts r.timeout transport 0 r.retries.toNat =
        (Except.ok okBody, (runAttempts r.timeout transport 0 r.retries.toNat).2) := by
      rw [← hfst]
    rw [Robot.request, hurl, hpair]
    simp [hcode]
  · exact runAttempts_headRecord r.timeout transport r.retries.toNat
  · exact runAttempts_tailRecords r.timeout transport r.retries.toNat

/-- The transport of the concrete retry scenario: 500 twice, then 200 with
a zero `errcode`. -/
def failTwiceTransport : Nat → TransportResult := fun i =>
  if i < 2 then TransportResult.response 500 ⟨1, "server error"⟩
  else TransportResult.response 200 ⟨0, "ok"⟩

/-- A concrete run of `send_succeeds_after_500_retries` with budget 2:
two 500s, then success, three attempts in all. -/
theorem send_succeeds_after_500_retries_witness :
    ∃ trace,
      (mkRobot ⟨some "https://example.invalid/hook", none, none, none, some 2⟩).request
          (textOf (Sum.inl "hello")) failTwiceTransport =
        SendResult.settled SendOutcome.success trace ∧
      trace.length = 2 + 1 ∧
      trace.head? = some ⟨0, 3000⟩ ∧
      ∀ rec ∈ trace.tail, rec = ⟨1000, 3000⟩ :=
  send_succeeds_after_500_retries 2
    (mkRobot ⟨some "https://example.invalid/hook", none, none, none, some 2⟩)
    (textOf (Sum.inl "hello")) failTwiceTransport 200 ⟨0, "ok"⟩ rfl rfl
    (by
      intro i hi
      exact ⟨⟨1, "server error"⟩, by simp [failTwiceTransport, hi]⟩)
    (by simp [failTwiceTransport]) (by decide) (by decide) rfl

/-! ## Claim theorems: construction and query parameters -/

/-- Counterexample to claim C5 as stated: `maxRetries` supplied as the
integer `0` (which the claim covers, `0 ≥ 0`) does not produce a retry
budget of `0` — JavaScript's `opts.retries || 10` treats `0` as absent, so
the budget is 10 (robot.ts:97). -/
theorem retries_zero_counterexample :
    ¬ ((mkRobot ⟨none, none, none, none, some 0⟩).retries = 0) := by
  decide

/-- Claim C5, amended for `||`-defaulting: a supplied `maxRetries ≥ 1`
is kept and a supplied `0` or an absent value defaults to 10; a supplied
`timeoutMs > 0` is kept and a supplied `0` or an absent value defaults
to 3000. (Both are private fields assigned only in the constructor, so
they cannot change afterwards.) -/
theorem constructor_defaults (opts : RobotConstructorOptions) (n t : Int) :
    (opts.retries = some n → 1 ≤ n → (mkRobot opts).retries = n) ∧
    (opts.retries = some 0 → (mkRobot opts).retries = 10) ∧
    (opts.retries = none → (mkRobot opts).retries = 10) ∧
    (opts.timeout = some t → 0 < t → (mkRobot opts).timeout = t) ∧
    (opts.timeout = some 0 → (mkRobot opts).timeout = 3000) ∧
    (opts.timeout = none → (mkRobot opts).timeout = 3000) := by
  refine ⟨?_, ?_, ?_, ?_, ?_, ?_⟩ <;> intro h
  · intro hn
    have : n ≠ 0 := by omega
    simp [mkRobot, jsOr, h, this]
  · simp [mkRobot, jsOr, h]
  · simp [mkRobot, jsOr, h]
  · intro ht
    have : t ≠ 0 := by omega
    simp [mkRobot, jsOr, h, this]
  · simp [mkRobot, jsOr, h]
  · simp [mkRobot, jsOr, h]

/-- Counterexample to claim C7 as stated: an `accessToken` that is present
but empty (`""`) is falsy, so robot.ts:74 does not override the co-supplied
`url`; the effective URL is the supplied one, not the derived one. -/
theorem accessToken_empty_counterexample :
    (mkRobot ⟨some "https://example.invalid/hook", some "", none, none, none⟩).url ≠
      some (dingtalkUrl "") := by
  decide

/-- Claim C7, amended to non-empty tokens: whenever a non-empty
`accessToken` is supplied, the effective URL is the derived
`https://oapi.dingtalk.com/robot/send?access_token=<token>`, whatever
`url` was co-supplied; the field is assigned only in the constructor, so
this holds for the dispatcher's lifetime. -/
theorem accessToken_derives_url (opts : RobotConstructorOptions) (t : String)
    (h : opts.accessToken = some t) (hne : t ≠ "") :
    (mkRobot opts).url = some (dingtalkUrl t) := by
  simp [mkRobot, resolveUrl, h, hne]

/-- A concrete run of `accessToken_derives_url`: the token wins over the
co-supplied URL. -/
theorem accessToken_derives_url_witness :
    (mkRobot ⟨some "https://example.invalid/hook", some "tok", none, none, none⟩).url =
      some (dingtalkUrl "tok") :=
  accessToken_derives_url
    ⟨some "https://example.invalid/hook", some "tok", none, none, none⟩ "tok" rfl
    (by decide)

/-- Counterexample to claim C6 as stated: with the empty-string secret —
which the claim explicitly includes — `this.#secret` is falsy, so
robot.ts:133 skips signing and no `sign` parameter is sent. -/
theorem empty_secret_counterexample :
    ¬ ("sign" ∈ (requestParams (mkRobot ⟨some "https://example.invalid/hook", none,
      some "", none, none⟩) 0).map Prod.fst) := by
  decide

/-- Claim C6, amended to non-empty secrets: every outgoing request carries
the cache-busting `_` parameter with the current epoch-millisecond clock;
when a non-empty secret is configured the parameters are exactly
`timestamp` (the same clock value), `sign` (the Signer output for that
secret and timestamp) and `_`; with no secret, or with the empty-string
secret (which behaves as unconfigured), only `_` is sent. -/
theorem request_params_shape (r : Robot) (now : Nat) (s : String) :
    (("_", toString now) ∈ requestParams r now) ∧
    (r.secret = some s → s ≠ "" →
      requestParams r now =
        [("timestamp", toString now), ("sign", sign s now), ("_", toString now)]) ∧
    (r.secret = none → requestParams r now = [("_", toString now)]) ∧
    (r.secret = some "" → requestParams r now = [("_", toString now)]) := by
  refine ⟨?_, ?_, ?_, ?_⟩
  · rcases hs : r.secret with _ | s2
    · simp [requestParams, withCacheBust, signedParams, hs]
    · by_cases h2 : s2 = "" <;> simp [requestParams, withCacheBust, signedParams, hs, h2]
  · intro hs hne
    simp [requestParams, withCacheBust, signedParams, hs, hne]
  · intro hs
    simp [requestParams, withCacheBust, signedParams, hs]
  · intro hs
    simp [requestParams, withCacheBust, signedParams, hs]

/-! ## Claim theorems: builders and payload shape -/

/-- Claim C9: the shorthand and structured builder forms are equivalent —
`text(content)` builds the same payload object, hence the byte-identical
serialized body, as `text({content})`, and `markdown(title, text)` the
same as `markdown({title, text})`. -/
theorem builder_forms_equivalent (s title body : String) :
    textOf (Sum.inl s) = textOf (Sum.inr ⟨s, none⟩) ∧
    stringify (textOf (Sum.inl s)) = stringify (textOf (Sum.inr ⟨s, none⟩)) ∧
    utf8Encode (stringify (textOf (Sum.inl s))) =
      utf8Encode (stringify (textOf (Sum.inr ⟨s, none⟩))) ∧
    markdownOf (Sum.inl (title, body)) = markdownOf (Sum.inr ⟨title, body, none⟩) ∧
    stringify (markdownOf (Sum.inl (title, body))) =
      stringify (markdownOf (Sum.inr ⟨title, body, none⟩)) ∧
    utf8Encode (stringify (markdownOf (Sum.inl (title, body)))) =
      utf8Encode (stringify (markdownOf (Sum.inr ⟨title, body, none⟩))) :=
  ⟨rfl, rfl, rfl, rfl, rfl, rfl⟩

/-- No action-card button carries an `at` key at any depth. -/
theorem buttons_no_at (bs : List IActionCardButton) :
    hasKeyList "at" (bs.map buttonJson) = false := by
  induction bs with
  | nil => rfl
  | cons b rest ih =>
    have hb : hasKeyDeep "at" (buttonJson b) = false := rfl
    simp [hasKeyList, hb, ih]

/-- No feed-card link carries an `at` key at any depth. -/
theorem feedLinks_no_at (ls : List IFeedCardLink) :
    hasKeyList "at" (ls.map feedCardLinkJson) = false := by
  induction ls with
  | nil => rfl
  | cons l rest ih =>
    have hl : hasKeyDeep "at" (feedCardLinkJson l) = false := rfl
    simp [hasKeyList, hl, ih]

/-- Claim C10: every builder's envelope serializes with exactly the two
keys `msgtype` and the key named by the msgtype; when `text` or `markdown`
is given mentions, the `at` field sits inside the variant object, not at
the envelope's top level; and `link`, `actionCard` and `feedCard` payloads
contain no `at` key at any depth. -/
theorem envelope_shape (c title body : String) (m : IMentions)
    (targ : Sum String ITextReq) (marg : Sum (String × String) IMarkdownReq)
    (l : ILinkReq) (a : IActionCardReq) (f : IFeedCardReq) :
    topKeys (textOf targ) = ["msgtype", "text"] ∧
    topKeys (markdownOf marg) = ["msgtype", "markdown"] ∧
    topKeys (linkOf l) = ["msgtype", "link"] ∧
    topKeys (actionCardOf a) = ["msgtype", "actionCard"] ∧
    topKeys (feedCardOf f) = ["msgtype", "feedCard"] ∧
    textOf (Sum.inr ⟨c, some m⟩) =
      Json.obj [("msgtype", Json.str "text"),
                ("text", Json.obj [("content", Json.str c), ("at", mentionsJson m)])] ∧
    markdownOf (Sum.inr ⟨title, body, some m⟩) =
      Json.obj [("msgtype", Json.str "markdown"),
                ("markdown", Json.obj [("title", Json.str title), ("text", Json.str body),
                                       ("at", mentionsJson m)])] ∧
    hasKeyDeep "at" (linkOf l) = false ∧
    hasKeyDeep "at" (actionCardOf a) = false ∧
    hasKeyDeep "at" (feedCardOf f) = false := by
  refine ⟨?_, ?_, ?_, ?_, ?_, rfl, rfl, ?_, ?_, ?_⟩
  · rcases targ with s | req <;> rfl
  · rcases marg with ⟨t, x⟩ | req <;> rfl
  · rfl
  · rcases a with _ | _ <;> rfl
  · rfl
  · rcases l with ⟨lt, lti, lm, lp⟩
    cases lp <;> rfl
  · rcases a with ⟨t, x, st2, su⟩ | ⟨t, x, o, btns⟩
    · rfl
    · simp [actionCardOf, actionCardJson, hasKeyDeep, hasKeyFields, buttons_no_at btns]
  · rcases f with ⟨ls⟩
    simp [feedCardOf, feedCardLinkJson, hasKeyDeep, hasKeyFields, feedLinks_no_at ls]

/-! ## Claim theorem: the signature (URL-safety) -/

/-- A base64 index character is from the base64 alphabet. -/
theorem b64Char_mem (n : Nat) : b64Char n ∈ b64Alphabet.data := by
  unfold b64Char
  rcases Nat.lt_or_ge n b64Alphabet.data.length with h | h
  · rw [List.getD_eq_getElem _ _ h]
    exact List.getElem_mem h
  · rw [List.getD_eq_default _ _ h]
    decide

/-- Every character base64 emits is from the alphabet or the pad `=`. -/
theorem base64Chars_mem (bs : List Nat) :
    ∀ c ∈ base64Chars bs, c ∈ b64Alphabet.data ∨ c = '=' := by
  induction bs using base64Chars.induct with
  | case1 =>
    intro c hc
    simp [base64Chars] at hc
  | case2 b1 =>
    intro c hc
    simp only [base64Chars, List.mem_cons, List.not_mem_nil, or_false] at hc
    rcases hc with rfl | rfl | rfl | rfl
    · exact Or.inl (b64Char_mem _)
    · exact Or.inl (b64Char_mem _)
    · exact Or.inr rfl
    · exact Or.inr rfl
  | case3 b1 b2 =>
    intro c hc
    simp only [base64Chars, List.mem_cons, List.not_mem_nil, or_false] at hc
    rcases hc with rfl | rfl | rfl | rfl
    · exact Or.inl (b64Char_mem _)
    · exact Or.inl (b64Char_mem _)
    · exact Or.inl (b64Char_mem _)
    · exact Or.inr rfl
  | case4 b1 b2 b3 rest ih =>
    intro c hc
    simp only [base64Chars, List.mem_cons] at hc
    rcases hc with rfl | rfl | rfl | rfl | hc
    · exact Or.inl (b64Char_mem _)
    · exact Or.inl (b64Char_mem _)
    · exact Or.inl (b64Char_mem _)
    · exact Or.inl (b64Char_mem _)
    · exact ih c hc

/-- A hex digit character is from the hex alphabet. -/
theorem hexDigit_mem (n : Nat) : hexDigit n ∈ "0123456789ABCDEF".data := by
  unfold hexDigit
  rcases Nat.lt_or_ge n "0123456789ABCDEF".data.length with h | h
  · rw [List.getD_eq_getElem _ _ h]
    exact List.getElem_mem h
  · rw [List.getD_eq_default _ _ h]
    decide

/-- Every character `encodeURIComponent` emits for one input character is
that character kept unreserved, a `%`, or a hex digit. -/
theorem encodeChar_mem (c : Char) :
    ∀ c2 ∈ encodeChar c,
      (c2 = c ∧ isUnreservedJS c = true) ∨ c2 = '%' ∨ c2 ∈ "0123456789ABCDEF".data := by
  intro c2 h2
  unfold encodeChar at h2
  by_cases hu : isUnreservedJS c
  · simp [hu] at h2
    exact Or.inl ⟨h2, hu⟩
  · simp only [hu, Bool.false_eq_true, if_false] at h2
    obtain ⟨b, _, hb⟩ := List.mem_flatMap.mp h2
    simp only [percentByte, List.mem_cons, List.not_mem_nil, or_false] at hb
    rcases hb with rfl | rfl | rfl
    · exact Or.inr (Or.inl rfl)
    · exact Or.inr (Or.inr (hexDigit_mem _))
    · exact Or.inr (Or.inr (hexDigit_mem _))

/-- Each alphabet character is alphanumeric, `+`, or `/`. -/
theorem b64Alphabet_classified :
    ∀ c ∈ b64Alphabet.data, c.isAlphanum = true ∨ c = '+' ∨ c = '/' := by
  decide

/-- Claim C2: the signature equals the spec's composition (percent-encoding
of the base64 of the HMAC-SHA256 digest of `"<T>\n<S>"` keyed by `S`), is
deterministic, and is URL-safe: every character of it is alphanumeric or
`%`. -/
theorem sign_deterministic_urlsafe (S : String) (T : Nat) :
    sign S T = signSpec S T ∧
    sign S T = sign S T ∧
    (sign S T).data.all (fun c => c.isAlphanum || c == '%') = true := by
  refine ⟨rfl, rfl, ?_⟩
  rw [List.all_eq_true]
  intro c hc
  have hc' : c ∈ (base64Chars
      (hmacSha256 (utf8Encode S) (utf8Encode (toString T ++ "\n" ++ S)))).flatMap
        encodeChar := hc
  obtain ⟨b64c, hb64c, hcc⟩ := List.mem_flatMap.mp hc'
  have halpha := base64Chars_mem _ b64c hb64c
  rcases encodeChar_mem b64c c hcc with ⟨rfl, hu⟩ | hc2 | hc2
  · rcases halpha with hmem | heq
    · rcases b64Alphabet_classified c hmem with ha | hpm
      · simp [ha]
      · exfalso
        rcases hpm with rfl | rfl
        · exact absurd hu (by decide)
        · exact absurd hu (by decide)
    · subst heq
      exact absurd hu (by decide)
  · subst hc2
    decide
  · have hx : ∀ x ∈ "0123456789ABCDEF".data, x.isAlphanum = true := by decide
    simp [hx c hc2]

end DingtalkRobot
